import Mathlib

/-!
Verification of the TeleThreaty client (src/telethreaty.py) against its
specification. The Python source is shallowly embedded: the projection loop of
`get_complete_message_history`, the pagination loop of `get_all_updates`, the
file classifier `get_file_category`, the id fan-out of `delete_messages_bulk`,
and the exception boundary of each remote-call helper are translated into
executable Lean definitions, and the spec's properties are proved about them.
-/

namespace Telethreaty

/-! ## Data model

JSON objects from the Telegram API are modelled by structures holding exactly
the fields the program reads. An absent (or empty, hence falsy) field is
`none`; `reply_to_message` is read only for key presence in the source
(`'reply_to_message' in message`), so it is modelled by a `Bool` presence flag.
-/

/-- The fields of `message['from']` that the program reads. -/
structure Sender where
  is_bot : Bool
deriving Repr, DecidableEq, Inhabited

/-- The fields of `message['chat']` that the program reads. -/
structure Chat where
  id : Int
  type : String
deriving Repr, DecidableEq, Inhabited

/-- The fields of a Telegram message object that the program reads.
`from_user` models the `from` key (`from` is a Lean keyword);
`reply_to_message` is `true` iff the key is present. -/
structure Message where
  message_id : Int
  chat : Chat
  date : Int
  text : Option String
  reply_to_message : Bool
  from_user : Option Sender
deriving Repr, DecidableEq, Inhabited

/-- An update object: `update_id` plus the optional `message` /
`channel_post` payloads (`none` models an absent or empty dict). -/
structure Update where
  update_id : Int
  message : Option Message
  channel_post : Option Message
deriving Repr, DecidableEq, Inhabited

/-- The dict appended to `messages` in `get_complete_message_history`. -/
structure ProjectedMessageRecord where
  update_id : Int
  message : Message
  timestamp : Int
  is_bot : Bool
  direction : String
deriving Repr, DecidableEq, Inhabited

/-! ## Message projector (`get_complete_message_history`, lines 204-239) -/

/-- `update.get('message', {}) or update.get('channel_post', {})`:
the message if present (truthy), otherwise the channel post. -/
def updateMessage (u : Update) : Option Message :=
  match u.message with
  | some m => some m
  | none => u.channel_post

/-- `message.get('from', {}).get('is_bot', False)`. -/
def messageIsBot (m : Message) : Bool :=
  (m.from_user.map Sender.is_bot).getD false

/-- `s.startswith('/')` for the one-character prefix the code tests: true
iff the first character of `s` is `/`. -/
def startsWithSlash (s : String) : Bool :=
  match s.data with
  | [] => false
  | c :: _ => c == '/'

/-- The `is_visible` predicate of lines 223-227:
`message.get('text', '').startswith('/') or 'reply_to_message' in message
or message['chat']['type'] == 'private'`. -/
def is_visible (m : Message) : Bool :=
  startsWithSlash (m.text.getD "") || m.reply_to_message || m.chat.type == "private"

/-- Line 217: `if chat_id and str(message['chat']['id']) != str(chat_id):
continue`. The filter is `Option Int`; `some 0` is falsy in Python, hence the
`c != 0` guard, and `str`-comparison of two integers is integer equality. -/
def chatFilterSkips (chat_id : Option Int) (m : Message) : Bool :=
  match chat_id with
  | none => false
  | some c => c != 0 && m.chat.id != c

/-- One iteration of the projection loop (lines 212-237): the record appended
for update `u`, or `none` when the loop `continue`s. -/
def projectUpdate (can_read_all : Bool) (chat_id : Option Int) (u : Update) :
    Option ProjectedMessageRecord :=
  match updateMessage u with
  | none => none
  | some m =>
    if chatFilterSkips chat_id m then none
    else if !can_read_all && !is_visible m then none
    else some
      { update_id := u.update_id
        message := m
        timestamp := m.date
        is_bot := messageIsBot m
        direction := if messageIsBot m then "SENT" else "RECEIVED" }

/-- The projection loop of `get_complete_message_history` over the polled
updates (the remote fetch itself is modelled separately by
`get_all_updates`). -/
def get_complete_message_history (can_read_all : Bool) (chat_id : Option Int)
    (updates : List Update) : List ProjectedMessageRecord :=
  updates.filterMap (projectUpdate can_read_all chat_id)

/-- The record `projectUpdate` builds for an update that carries a message
(arbitrary values on message-less updates, which the projector skips). -/
def recordFor (u : Update) : ProjectedMessageRecord :=
  match updateMessage u with
  | some m =>
    { update_id := u.update_id
      message := m
      timestamp := m.date
      is_bot := messageIsBot m
      direction := if messageIsBot m then "SENT" else "RECEIVED" }
  | none => default

/-- The visibility filter of the spec, as a standalone pass over messages:
keep exactly the messages `is_visible` accepts (the predicate applied at
lines 221-229 when privacy mode is on). -/
def applyVisibilityFilter (ms : List Message) : List Message :=
  ms.filter is_visible

/-! ## Update poller (`get_all_updates`, lines 161-202)

The remote endpoint is modelled by a script: the list of responses the
successive `requests.get` calls receive, in call order. A `some r` entry is a
decoded JSON body with its `ok` flag and `result` array; a `none` entry is a
call whose `requests.get`/`.json()` raises (a transport failure), which the
`except` clause at line 199 turns into returning the accumulator. A call made
after the script is exhausted is likewise a raising call. Besides the
returned updates, the model records the trace of `(offset, limit)` request
parameters the loop sends, so pagination invariants can be stated. -/

/-- A decoded `getUpdates` response body: its `ok` flag and `result` array. -/
structure Resp where
  ok : Bool
  result : List Update
deriving Repr, DecidableEq, Inhabited

/-- The `offset` and `limit` parameters of one `getUpdates` request
(line 180-184). -/
structure Req where
  offset : Int
  lim : Int
deriving Repr, DecidableEq, Inhabited

/-- `batch_updates[-1]['update_id']` (only used on non-empty batches). -/
def lastUpdateId (l : List Update) : Int :=
  match l.getLast? with
  | some u => u.update_id
  | none => 0

/-- The `while True` loop of `get_all_updates` (lines 179-197), run against a
response script. Returns the accumulated updates and the trace of requests
issued. Each iteration sends `{'offset': offset, 'limit': min(100, limit -
len(all_updates))}`; on `not ok` or empty `result` it breaks; otherwise it
extends the accumulator, advances the offset to the last update id plus one,
and breaks when the accumulator reaches `limit` or the batch was short. -/
def get_all_updates_loop (limit : Int) :
    List (Option Resp) → Int → List Update → List Update × List Req
  | [], offset, acc => (acc, [⟨offset, min 100 (limit - acc.length)⟩])
  | none :: _, offset, acc => (acc, [⟨offset, min 100 (limit - acc.length)⟩])
  | some r :: rest, offset, acc =>
    if !r.ok || r.result.isEmpty then (acc, [⟨offset, min 100 (limit - acc.length)⟩])
    else if limit ≤ ((acc ++ r.result).length : Int) ∨ r.result.length < 100 then
      (acc ++ r.result, [⟨offset, min 100 (limit - acc.length)⟩])
    else
      ((get_all_updates_loop limit rest (lastUpdateId r.result + 1) (acc ++ r.result)).1,
        ⟨offset, min 100 (limit - acc.length)⟩ ::
          (get_all_updates_loop limit rest (lastUpdateId r.result + 1) (acc ++ r.result)).2)

/-- `get_all_updates(limit, offset)` against a response script: the list of
updates it returns. -/
def get_all_updates (script : List (Option Resp)) (limit : Int) (offset : Int) :
    List Update :=
  (get_all_updates_loop limit script offset []).1

/-- The trace of `(offset, limit)` request parameters `get_all_updates`
sends for a given response script. -/
def get_all_updates_requests (script : List (Option Resp)) (limit : Int)
    (offset : Int) : List Req :=
  (get_all_updates_loop limit script offset []).2

/-- A response script whose pages respect the requested `limit` parameter:
with `n` updates already accumulated, the next page the server sends holds at
most `min(100, limit - n)` updates (the `limit` the loop requests at that
point). Transport failures end the loop, so nothing is required past one. -/
def conformingScript (limit : Int) : List (Option Resp) → Nat → Bool
  | [], _ => true
  | none :: _, _ => true
  | some r :: rest, n =>
    decide ((r.result.length : Int) ≤ min 100 (limit - n)) &&
      conformingScript limit rest (n + r.result.length)

/-! ## File classifier (`get_file_category`, lines 322-331) -/

/-- Index of the last occurrence of `c` in `l`, or `-1`
(Python `str.rfind`). -/
def rlastIndexOf (c : Char) : List Char → Int
  | [] => -1
  | a :: rest =>
    let r := rlastIndexOf c rest
    if 0 ≤ r then r + 1
    else if a = c then 0 else -1

/-- `os.path.splitext(p)[1]` (posix): the substring from the last `.` that
lies after the last `/`, unless every character between them is a `.`
(leading dots of the final component are part of the root). -/
def splitextExt (p : String) : String :=
  let l := p.data
  let sepIndex := rlastIndexOf '/' l
  let dotIndex := rlastIndexOf '.' l
  if sepIndex < dotIndex then
    let between := (l.drop (sepIndex + 1).toNat).take (dotIndex - sepIndex - 1).toNat
    if between.any (fun a => a ≠ '.') then String.mk (l.drop dotIndex.toNat) else ""
  else ""

/-- Python `str.lower()` on the extension, as a character map (all table
extensions are ASCII, so ASCII lowercasing decides the lookup). -/
def strLower (s : String) : String := String.mk (s.data.map Char.toLower)

/-- The `self.file_categories` table (lines 27-38), in insertion order. -/
def file_categories : List (String × List String) :=
  [("archive", [".zip", ".7z", ".rar", ".tar", ".gz", ".gzip", ".bz2", ".xz", ".lzh", ".iso"]),
   ("document", [".pdf", ".doc", ".docx", ".txt", ".rtf", ".odt", ".pages"]),
   ("code", [".py", ".js", ".java", ".cpp", ".c", ".html", ".css", ".php", ".rb", ".go", ".rs"]),
   ("spreadsheet", [".xls", ".xlsx", ".csv", ".ods", ".numbers"]),
   ("presentation", [".ppt", ".pptx", ".key", ".odp"]),
   ("image", [".jpg", ".jpeg", ".png", ".gif", ".bmp", ".tiff", ".webp", ".svg"]),
   ("audio", [".mp3", ".wav", ".ogg", ".flac", ".m4a", ".aac"]),
   ("video", [".mp4", ".avi", ".mov", ".wmv", ".flv", ".webm", ".mkv"]),
   ("executable", [".exe", ".msi", ".dmg", ".pkg", ".deb", ".rpm", ".apk"]),
   ("config", [".json", ".xml", ".yaml", ".yml", ".ini", ".conf", ".cfg"])]

/-- `get_file_category(filename)`: `"unknown"` on a falsy filename, else the
first category whose extension list contains the lowercased final extension,
else `"other"`. -/
def get_file_category (filename : String) : String :=
  if filename = "" then "unknown"
  else
    match file_categories.find? (fun ce => ce.2.contains (strLower (splitextExt filename))) with
    | some ce => ce.1
    | none => "other"

/-! ## Bulk delete (`delete_messages_bulk`, lines 270-281)

The function spawns one `_delete_single_message(chat_id, start_message_id - i)`
process per `i in range(count)`; the observable fan-out is the list of
targeted message ids. -/

/-- The message ids `delete_messages_bulk(chat_id, start_message_id, count)`
issues a delete for, one per spawned process, in spawn order. -/
def delete_messages_bulk_targets (start_message_id : Int) (count : Nat) : List Int :=
  (List.range count).map (fun i : Nat => start_message_id - (i : Int))

/-! ## Exception boundaries of the remote-call helpers

Each helper wraps one HTTP call. The call's outcome is modelled by
`Transport`: either a decoded response body or a raised transport/network
exception carrying its message (`str(e)`). What the Python function then does
is a `PyOutcome`: it either returns a value or lets an exception escape its
boundary. Each helper below is the translation of one method's `try/except`
structure applied to that outcome. -/

/-- Outcome of the underlying `requests` call: a decoded body, or a raised
transport exception with message `str(e)`. -/
inductive Transport (α : Type) where
  | success : α → Transport α
  | failure : String → Transport α
deriving Repr, DecidableEq

/-- What a Python function does at its boundary: return a value, or let an
exception propagate to the caller. -/
inductive PyOutcome (α : Type) where
  | returns : α → PyOutcome α
  | raises : String → PyOutcome α
deriving Repr, DecidableEq

/-- A decoded API response body as the helpers return it: the `ok` flag, the
`error` key (present only on the synthesized failure shape), and the
`description` key of Telegram error bodies. -/
structure ApiResponse where
  ok : Bool
  error : Option String
  description : Option String
deriving Repr, DecidableEq, Inhabited

/-- The `{'ok': False, 'error': str(e)}` dict every `except` clause of the
API helpers builds. -/
def errorShape (e : String) : ApiResponse :=
  { ok := false, error := some e, description := none }

/-- `get_bot_info` (lines 40-46): `try: return response.json() except
Exception as e: return {'ok': False, 'error': str(e)}`. -/
def get_bot_info (t : Transport ApiResponse) : PyOutcome ApiResponse :=
  match t with
  | .success r => .returns r
  | .failure e => .returns (errorShape e)

/-- `get_chat_info` (lines 48-56): same boundary as `get_bot_info`. -/
def get_chat_info (t : Transport ApiResponse) : PyOutcome ApiResponse :=
  match t with
  | .success r => .returns r
  | .failure e => .returns (errorShape e)

/-- `get_chat_member` (lines 58-66): same boundary. -/
def get_chat_member (t : Transport ApiResponse) : PyOutcome ApiResponse :=
  match t with
  | .success r => .returns r
  | .failure e => .returns (errorShape e)

/-- `get_chat_administrators` (lines 68-76): same boundary. -/
def get_chat_administrators (t : Transport ApiResponse) : PyOutcome ApiResponse :=
  match t with
  | .success r => .returns r
  | .failure e => .returns (errorShape e)

/-- `get_chat_member_count` (lines 78-86): same boundary. -/
def get_chat_member_count (t : Transport ApiResponse) : PyOutcome ApiResponse :=
  match t with
  | .success r => .returns r
  | .failure e => .returns (errorShape e)

/-- `get_my_commands` (lines 88-96): same boundary. -/
def get_my_commands (t : Transport ApiResponse) : PyOutcome ApiResponse :=
  match t with
  | .success r => .returns r
  | .failure e => .returns (errorShape e)

/-- `get_my_default_admin_rights` (lines 98-106): same boundary. -/
def get_my_default_admin_rights (t : Transport ApiResponse) : PyOutcome ApiResponse :=
  match t with
  | .success r => .returns r
  | .failure e => .returns (errorShape e)

/-- `send_message` (lines 250-258): same boundary. -/
def send_message (t : Transport ApiResponse) : PyOutcome ApiResponse :=
  match t with
  | .success r => .returns r
  | .failure e => .returns (errorShape e)

/-- `delete_message` (lines 260-268): same boundary. -/
def delete_message (t : Transport ApiResponse) : PyOutcome ApiResponse :=
  match t with
  | .success r => .returns r
  | .failure e => .returns (errorShape e)

/-- `send_file` (lines 369-400): the whole body is inside `try`, with the
same `except Exception` boundary. -/
def send_file (t : Transport ApiResponse) : PyOutcome ApiResponse :=
  match t with
  | .success r => .returns r
  | .failure e => .returns (errorShape e)

/-- `get_file_download_url` (lines 305-320): the response carries the `ok`
flag and `result.file_path`; on success with `ok` it returns the download
URL, on `not ok` it returns `None`, and the `except` clause prints and
returns `None`. -/
def get_file_download_url (token : String) (t : Transport (Bool × String)) :
    PyOutcome (Option String) :=
  match t with
  | .success (ok, file_path) =>
    if ok then .returns (some ("https://api.telegram.org/file/bot" ++ token ++ "/" ++ file_path))
    else .returns none
  | .failure _ => .returns none

/-- `download_file` (lines 333-367): the streaming GET and file write sit
inside `try ... except Exception`, which prints and falls through to
`return None`; a successful download returns the written path (the path
computation itself is local filesystem logic, taken as the success datum). -/
def download_file (t : Transport String) : PyOutcome (Option String) :=
  match t with
  | .success filepath => .returns (some filepath)
  | .failure _ => .returns none

/-- One `requests.get` call inside the `while True` loop of
`monitor_messages` (lines 616-633): the surrounding `try` catches only
`KeyboardInterrupt`, so a transport failure propagates out of
`monitor_messages` to its caller. -/
def monitor_messages_poll (t : Transport ApiResponse) : PyOutcome ApiResponse :=
  match t with
  | .success r => .returns r
  | .failure e => .raises e

/-! ## Concrete data for the spec's examples -/

/-- Updates with ids `start, start + 1, ...` and no payload, for mock pages. -/
def mkUpdates (start n : Nat) : List Update :=
  (List.range n).map (fun i : Nat => ⟨(start : Int) + (i : Int), none, none⟩)

/-- The mock source of the spec's pagination test: three `ok` pages of sizes
100, 100 and 37, with consecutive update ids from 1. -/
def mockScript : List (Option Resp) :=
  [some ⟨true, mkUpdates 1 100⟩, some ⟨true, mkUpdates 101 100⟩,
   some ⟨true, mkUpdates 201 37⟩]

/-- A non-private chat, for the visibility examples. -/
def demoGroupChat : Chat := ⟨77, "group"⟩

/-- A command message (`"/start"`) in the group chat, no reply. -/
def demoCommandMsg : Message := ⟨1, demoGroupChat, 1000, some "/start", false, none⟩

/-- A plain message (`"hello"`) in the group chat, no reply. -/
def demoHelloMsg : Message := ⟨2, demoGroupChat, 1001, some "hello", false, none⟩

/-- A non-command message in a private chat. -/
def demoPrivateMsg : Message := ⟨3, ⟨5, "private"⟩, 1002, some "hi", false, none⟩

/-- An update carrying message `m` in its `message` field. -/
def demoUpdate (i : Int) (m : Message) : Update := ⟨i, some m, none⟩

/-- Three demo updates: two with messages, one with an empty payload. -/
def demoUpdates : List Update :=
  [demoUpdate 10 demoCommandMsg, ⟨11, none, none⟩, demoUpdate 12 demoPrivateMsg]

/-! ## Theorems -/

/-- C1: with `can_read_all = false` (privacy mode) and no chat filter, an
update carrying a message is kept by the projection iff the message's text
starts with `/`, or it carries a `reply_to_message` reference, or its chat
type is `"private"`. -/
theorem privacy_mode_visibility (u : Update) (m : Message)
    (h : updateMessage u = some m) :
    (projectUpdate false none u).isSome = true ↔
      (startsWithSlash (m.text.getD "") = true ∨ m.reply_to_message = true ∨
        m.chat.type = "private") := by
  have h1 : (projectUpdate false none u).isSome = is_visible m := by
    unfold projectUpdate
    rw [h]
    simp only [chatFilterSkips, Bool.false_eq_true, if_false, Bool.not_false, Bool.true_and]
    cases hv : is_visible m <;> simp [hv]
  rw [h1]
  simp [is_visible, or_assoc]

/-- C1 witness: in privacy mode, `"/start"` in a group chat is retained,
`"hello"` in a group chat with no reply is dropped, and a non-command
message in a private chat is retained. -/
theorem privacy_mode_visibility_witness :
    (projectUpdate false none (demoUpdate 10 demoCommandMsg)).isSome = true ∧
    (projectUpdate false none (demoUpdate 11 demoHelloMsg)).isSome = false ∧
    (projectUpdate false none (demoUpdate 12 demoPrivateMsg)).isSome = true := by
  refine ⟨?_, ?_, ?_⟩
  · exact (privacy_mode_visibility (demoUpdate 10 demoCommandMsg) demoCommandMsg rfl).mpr
      (Or.inl (by decide))
  · have h := privacy_mode_visibility (demoUpdate 11 demoHelloMsg) demoHelloMsg rfl
    rw [Bool.eq_false_iff]
    intro hh
    exact absurd (h.mp hh) (by decide)
  · exact (privacy_mode_visibility (demoUpdate 12 demoPrivateMsg) demoPrivateMsg rfl).mpr
      (Or.inr (Or.inr (by decide)))

/-- With full read access and no chat filter, one loop iteration keeps an
update iff its embedded message is present, producing `recordFor`. -/
theorem projectUpdate_true_none (u : Update) :
    projectUpdate true none u =
      if (updateMessage u).isSome then some (recordFor u) else none := by
  unfold projectUpdate recordFor
  cases h : updateMessage u with
  | none => simp
  | some m => simp [chatFilterSkips]

/-- C2: with `chat_id_filter = None` and `can_read_all = true`, the
projection emits exactly one record per update that carries a message, in
input order, and every emitted record's message comes from such an update
(never from an update whose embedded message is empty). -/
theorem project_full_access (us : List Update) :
    get_complete_message_history true none us =
      (us.filter (fun u => (updateMessage u).isSome)).map recordFor ∧
    (get_complete_message_history true none us).length =
      us.countP (fun u => (updateMessage u).isSome) ∧
    ∀ r ∈ get_complete_message_history true none us,
      ∃ u ∈ us, updateMessage u = some r.message ∧ r.update_id = u.update_id := by
  have hmain : get_complete_message_history true none us =
      (us.filter (fun u => (updateMessage u).isSome)).map recordFor := by
    induction us with
    | nil => rfl
    | cons u us ih =>
      simp only [get_complete_message_history, List.filterMap_cons] at ih ⊢
      rw [projectUpdate_true_none]
      by_cases hu : (updateMessage u).isSome
      · simp [hu, List.filter_cons, ih]
      · simp [hu, List.filter_cons, ih]
  refine ⟨hmain, ?_, ?_⟩
  · rw [hmain, List.length_map, List.countP_eq_length_filter]
  · intro r hr
    rw [hmain] at hr
    obtain ⟨u, hu, rfl⟩ := List.mem_map.mp hr
    obtain ⟨humem, husome⟩ := List.mem_filter.mp hu
    obtain ⟨m, hm⟩ := Option.isSome_iff_exists.mp (by simpa using husome)
    refine ⟨u, humem, ?_, ?_⟩
    · simp [recordFor, hm]
    · simp [recordFor, hm]

/-- C2 witness: the full-access projection of the demo updates equals the
mapped filter of the updates that carry a message. -/
theorem project_full_access_witness :
    get_complete_message_history true none demoUpdates =
      (demoUpdates.filter (fun u => (updateMessage u).isSome)).map recordFor :=
  (project_full_access demoUpdates).1

set_option maxRecDepth 20000 in
/-- C3: the polling loop stops on a failed (`ok = false`) or empty page and
on a page that fills the limit or is shorter than 100; on the mock source
with pages of sizes 100, 100 and 37 and `limit = 1000` it returns exactly
the 237 updates of the three pages and issues exactly three requests. -/
theorem pagination_termination :
    (∀ (limit offset : Int) (acc : List Update) (r : Resp)
        (rest : List (Option Resp)), r.ok = false ∨ r.result = [] →
      get_all_updates_loop limit (some r :: rest) offset acc =
        (acc, [⟨offset, min 100 (limit - acc.length)⟩])) ∧
    (∀ (limit offset : Int) (acc : List Update) (r : Resp)
        (rest : List (Option Resp)), r.ok = true → r.result ≠ [] →
      limit ≤ ((acc ++ r.result).length : Int) ∨ r.result.length < 100 →
      get_all_updates_loop limit (some r :: rest) offset acc =
        (acc ++ r.result, [⟨offset, min 100 (limit - acc.length)⟩])) ∧
    get_all_updates mockScript 1000 0 =
      mkUpdates 1 100 ++ mkUpdates 101 100 ++ mkUpdates 201 37 ∧
    (get_all_updates mockScript 1000 0).length = 237 ∧
    (get_all_updates_requests mockScript 1000 0).length = 3 := by
  refine ⟨?_, ?_, by decide, by decide, by decide⟩
  · intro limit offset acc r rest hbreak
    rw [get_all_updates_loop]
    rw [if_pos ?_]
    rcases hbreak with h | h <;> simp [h]
  · intro limit offset acc r rest hok hne hshort
    rw [get_all_updates_loop]
    rw [if_neg ?_, if_pos hshort]
    have : r.result.isEmpty = false := by
      cases hres : r.result with
      | nil => exact absurd hres hne
      | cons a l => simp [hres]
    simp [hok, this]

/-- C3 witness: the mock source returns exactly 237 updates. -/
theorem pagination_termination_witness :
    (get_all_updates mockScript 1000 0).length = 237 :=
  pagination_termination.2.2.2.1

/-- The first request a loop run issues carries the starting offset and
`min(100, limit - len(acc))`. -/
theorem get_all_updates_loop_requests_head (limit : Int) (script : List (Option Resp))
    (offset : Int) (acc : List Update) :
    ∃ rest, (get_all_updates_loop limit script offset acc).2 =
      ⟨offset, min 100 (limit - acc.length)⟩ :: rest := by
  cases script with
  | nil => exact ⟨[], rfl⟩
  | cons hd tl =>
    cases hd with
    | none => exact ⟨[], rfl⟩
    | some r =>
      unfold get_all_updates_loop
      split
      · exact ⟨[], rfl⟩
      · split
        · exact ⟨[], rfl⟩
        · exact ⟨_, rfl⟩

/-- C4: whenever the polling loop issues a further request, the page
received just before it was successful and non-empty, and the new request's
offset is that page's last `update_id` plus one — so no update of an
already-fetched page is requested again. -/
theorem pagination_offset_advances (script : List (Option Resp)) (limit offset : Int)
    (acc : List Update) (i : Nat) (req2 : Req)
    (h : (get_all_updates_loop limit script offset acc).2.get? (i + 1) = some req2) :
    ∃ r : Resp, script.get? i = some (some r) ∧ r.ok = true ∧ r.result ≠ [] ∧
      req2.offset = lastUpdateId r.result + 1 := by
  induction script generalizing offset acc i with
  | nil => simp [get_all_updates_loop] at h
  | cons hd tl ih =>
    cases hd with
    | none => simp [get_all_updates_loop] at h
    | some r =>
      rw [get_all_updates_loop] at h
      by_cases h1 : (!r.ok || r.result.isEmpty) = true
      · rw [if_pos h1] at h
        simp at h
      · rw [if_neg h1] at h
        by_cases h2 : limit ≤ ((acc ++ r.result).length : Int) ∨ r.result.length < 100
        · rw [if_pos h2] at h
          simp at h
        · rw [if_neg h2] at h
          have hok : r.ok = true := by
            by_contra hok
            rw [Bool.not_eq_true] at hok
            simp [hok] at h1
          have hne : r.result ≠ [] := by
            intro hnil
            simp [hnil] at h1
          cases i with
          | zero =>
            obtain ⟨rest, hrest⟩ := get_all_updates_loop_requests_head limit tl
              (lastUpdateId r.result + 1) (acc ++ r.result)
            simp only [List.get?_cons_succ] at h
            rw [hrest] at h
            simp only [List.get?_cons_zero, Option.some.injEq] at h
            exact ⟨r, by simp, hok, hne, by rw [← h]⟩
          | succ j =>
            simp only [List.get?_cons_succ] at h
            exact ih _ _ j h

set_option maxRecDepth 20000 in
/-- C4 witness: on the mock source, the second request's offset is the last
update id of the first page (100) plus one. -/
theorem pagination_offset_advances_witness :
    ∃ r : Resp, mockScript.get? 0 = some (some r) ∧ r.ok = true ∧ r.result ≠ [] ∧
      (⟨101, 100⟩ : Req).offset = lastUpdateId r.result + 1 :=
  pagination_offset_advances mockScript 1000 0 [] 0 ⟨101, 100⟩ (by decide)

/-- C5: the file classifier is total on filename strings and classifies by
the lowercased final extension: `"report.PDF"` is a document,
`"archive.tar.gz"` is an archive (final extension `.gz`), `"noext"` falls to
`"other"`, the empty filename to `"unknown"`, and every string maps into the
fixed category set. -/
theorem classify_spec :
    get_file_category "report.PDF" = "document" ∧
    get_file_category "archive.tar.gz" = "archive" ∧
    get_file_category "noext" = "other" ∧
    get_file_category "" = "unknown" ∧
    ∀ s : String, get_file_category s ∈ "unknown" :: "other" :: file_categories.map Prod.fst := by
  refine ⟨by decide, by decide, by decide, by decide, ?_⟩
  intro s
  unfold get_file_category
  split
  · simp
  · split
    · rename_i ce hce
      simp only [List.mem_cons]
      right; right
      exact List.mem_map_of_mem _ (List.mem_of_find?_eq_some hce)
    · simp

/-- C6: bulk delete targets exactly the ids `start - i` for `i < count`,
each exactly once; for `start = 500`, `count = 5` that is
`{500, 499, 498, 497, 496}`. -/
theorem bulk_delete_targets_spec :
    (∀ (start : Int) (count : Nat),
      (delete_messages_bulk_targets start count).Nodup ∧
      ∀ m : Int, m ∈ delete_messages_bulk_targets start count ↔
        ∃ i : Nat, i < count ∧ m = start - (i : Int)) ∧
    delete_messages_bulk_targets 500 5 = [500, 499, 498, 497, 496] := by
  constructor
  · intro start count
    refine ⟨?_, ?_⟩
    · simp only [delete_messages_bulk_targets]
      refine List.Nodup.map ?_ (List.nodup_range count)
      intro a b hab
      simp only at hab
      omega
    · intro m
      simp only [delete_messages_bulk_targets, List.mem_map, List.mem_range]
      constructor
      · rintro ⟨i, hi, rfl⟩
        exact ⟨i, hi, rfl⟩
      · rintro ⟨i, hi, rfl⟩
        exact ⟨i, hi, rfl⟩
  · decide

/-- C7 counterexample: a transport failure inside `monitor_messages`'s
polling loop propagates out of the function (its `try` catches only
`KeyboardInterrupt`), contradicting the claim that no component-level call
ever lets such a failure escape. -/
theorem monitor_messages_propagates_failure :
    monitor_messages_poll (.failure "Connection refused") =
      .raises "Connection refused" := rfl

/-- C7 amended: every remote-call helper except `monitor_messages` catches
transport failures at its own boundary — the API helpers return the uniform
`{ok: false, error}` shape and the file-URL/download helpers return `None` —
while `monitor_messages` lets the failure propagate to its caller. -/
theorem remote_call_boundaries (e token : String) :
    get_bot_info (.failure e) = .returns (errorShape e) ∧
    get_chat_info (.failure e) = .returns (errorShape e) ∧
    get_chat_member (.failure e) = .returns (errorShape e) ∧
    get_chat_administrators (.failure e) = .returns (errorShape e) ∧
    get_chat_member_count (.failure e) = .returns (errorShape e) ∧
    get_my_commands (.failure e) = .returns (errorShape e) ∧
    get_my_default_admin_rights (.failure e) = .returns (errorShape e) ∧
    send_message (.failure e) = .returns (errorShape e) ∧
    delete_message (.failure e) = .returns (errorShape e) ∧
    send_file (.failure e) = .returns (errorShape e) ∧
    get_file_download_url token (.failure e) = .returns none ∧
    download_file (.failure e) = .returns none ∧
    monitor_messages_poll (.failure e) = .raises e :=
  ⟨rfl, rfl, rfl, rfl, rfl, rfl, rfl, rfl, rfl, rfl, rfl, rfl, rfl⟩

/-- C7 amended witness: the boundary behaviour at a concrete error
message and token. -/
theorem remote_call_boundaries_witness :
    get_bot_info (.failure "timeout") = .returns (errorShape "timeout") ∧
    get_chat_info (.failure "timeout") = .returns (errorShape "timeout") ∧
    get_chat_member (.failure "timeout") = .returns (errorShape "timeout") ∧
    get_chat_administrators (.failure "timeout") = .returns (errorShape "timeout") ∧
    get_chat_member_count (.failure "timeout") = .returns (errorShape "timeout") ∧
    get_my_commands (.failure "timeout") = .returns (errorShape "timeout") ∧
    get_my_default_admin_rights (.failure "timeout") = .returns (errorShape "timeout") ∧
    send_message (.failure "timeout") = .returns (errorShape "timeout") ∧
    delete_message (.failure "timeout") = .returns (errorShape "timeout") ∧
    send_file (.failure "timeout") = .returns (errorShape "timeout") ∧
    get_file_download_url "tok" (.failure "timeout") = .returns none ∧
    download_file (.failure "timeout") = .returns none ∧
    monitor_messages_poll (.failure "timeout") = .raises "timeout" :=
  remote_call_boundaries "timeout" "tok"

/-- C8: if the transport raises during some iteration of the polling loop —
after any run of successful full pages that keep the loop going — the loop
does not raise: it returns exactly the updates accumulated before the
failure. -/
theorem transport_error_returns_accumulated (good : List Resp)
    (tail : List (Option Resp)) (limit offset : Int) (acc : List Update)
    (hok : ∀ r ∈ good, r.ok = true ∧ r.result.length = 100)
    (hlim : (acc.length : Int) + 100 * good.length < limit) :
    (get_all_updates_loop limit (good.map some ++ none :: tail) offset acc).1 =
      acc ++ (good.map Resp.result).flatten := by
  induction good generalizing offset acc with
  | nil => simp [get_all_updates_loop]
  | cons r gs ih =>
    obtain ⟨hrok, hrlen⟩ := hok r (by simp)
    have hne : r.result.isEmpty = false := by
      cases hres : r.result with
      | nil => rw [hres] at hrlen; simp at hrlen
      | cons a l => simp [hres]
    simp only [List.map_cons, List.cons_append]
    rw [get_all_updates_loop]
    rw [if_neg (by simp [hrok, hne])]
    rw [if_neg (by
      push_neg
      constructor
      · simp only [List.length_append, hrlen, List.length_cons] at hlim ⊢
        push_cast at hlim ⊢
        omega
      · omega)]
    rw [ih _ _ (fun r hr => hok r (by simp [hr]))
      (by
        simp only [List.length_append, hrlen, List.length_cons] at hlim ⊢
        push_cast at hlim ⊢
        omega)]
    simp [List.append_assoc]

/-- C8 witness: one successful full page followed by a transport error
yields exactly that page's updates. -/
theorem transport_error_returns_accumulated_witness :
    (get_all_updates_loop 1000
        ([Resp.mk true (mkUpdates 1 100)].map some ++ none :: []) 0 []).1 =
      [] ++ (([Resp.mk true (mkUpdates 1 100)].map Resp.result).flatten) :=
  transport_error_returns_accumulated [Resp.mk true (mkUpdates 1 100)] [] 1000 0 []
    (by decide) (by decide)

/-- Invariant for C10: when every consumed page respects the requested
per-page limit, the accumulator never exceeds `limit`. -/
theorem get_all_updates_loop_length_le (limit : Int) (script : List (Option Resp))
    (offset : Int) (acc : List Update)
    (hconf : conformingScript limit script acc.length = true)
    (hacc : (acc.length : Int) ≤ limit) :
    ((get_all_updates_loop limit script offset acc).1.length : Int) ≤ limit := by
  induction script generalizing offset acc with
  | nil => simpa [get_all_updates_loop] using hacc
  | cons hd tl ih =>
    cases hd with
    | none => simpa [get_all_updates_loop] using hacc
    | some r =>
      simp only [conformingScript, Bool.and_eq_true, decide_eq_true_eq] at hconf
      obtain ⟨hle, hrest⟩ := hconf
      have hbound : ((acc ++ r.result).length : Int) ≤ limit := by
        have h2 := le_trans hle (min_le_right (100 : Int) (limit - acc.length))
        simp only [List.length_append]
        push_cast at h2 ⊢
        omega
      rw [get_all_updates_loop]
      split
      · exact hacc
      · split
        · exact hbound
        · refine ih _ _ ?_ hbound
          rwa [List.length_append]

/-- C10: for positive `limit` and any starting offset, if each page of the
source holds at most the number of updates the loop requests for it
(`min(100, limit - accumulated)`), then `get_all_updates` returns at most
`limit` updates. -/
theorem get_all_updates_length_le_limit (script : List (Option Resp))
    (limit offset : Int) (hpos : 0 < limit)
    (hconf : conformingScript limit script 0 = true) :
    ((get_all_updates script limit offset).length : Int) ≤ limit := by
  have h0 : ((([] : List Update)).length : Int) ≤ limit := by
    simpa using le_of_lt hpos
  exact get_all_updates_loop_length_le limit script offset [] hconf h0

/-- C10 witness: a single conforming page of 100 updates with
`limit = 1000` stays within the limit. -/
theorem get_all_updates_length_le_limit_witness :
    ((get_all_updates [some (Resp.mk true (mkUpdates 1 100))] 1000 0).length : Int) ≤ 1000 :=
  get_all_updates_length_le_limit [some (Resp.mk true (mkUpdates 1 100))] 1000 0
    (by decide) (by decide)

/-- C9: the visibility filter is idempotent — filtering its own output
changes nothing. -/
theorem visibility_filter_idempotent (ms : List Message) :
    applyVisibilityFilter (applyVisibilityFilter ms) = applyVisibilityFilter ms := by
  simp [applyVisibilityFilter, List.filter_filter]

/-- C9 witness: idempotence on the demo messages. -/
theorem visibility_filter_idempotent_witness :
    applyVisibilityFilter (applyVisibilityFilter
        [demoCommandMsg, demoHelloMsg, demoPrivateMsg]) =
      applyVisibilityFilter [demoCommandMsg, demoHelloMsg, demoPrivateMsg] :=
  visibility_filter_idempotent [demoCommandMsg, demoHelloMsg, demoPrivateMsg]

end Telethreaty
